import Mathlib

/-!
Verification of the v1.0 presentation exchange record model
(`aries_cloudagent/messaging/present_proof/v1_0/models/presentation_exchange.py`).

The record is a pure value object: optional string attributes, three opaque
structured payloads, and a boolean flag.  Two projections derive the storage
representation (`record_tags`, `record_value`), and a schema validates the
wire form on deserialization (`OneOf` constraints on `initiator`, `role`,
`verified`; no field-level constraint on `state`).

Python conventions modelled explicitly: an attribute defaulting to `None` is
an `Option`; Python truthiness (`if val:`) on a string means "present and
non-empty", on a dict "present and non-empty", on a bool "is True".
Opaque dict payloads are modelled as association lists of strings, which is
enough structure to express emptiness/truthiness.
-/

/-- Opaque structured payload (a serialized message / indy proof object).
Only its emptiness matters to the record model. -/
def Obj : Type := List (String × String)

instance : DecidableEq Obj := by
  unfold Obj
  infer_instance

/-- A value stored in the record's JSON value mapping: tag strings, opaque
payload objects, or the boolean auto-present flag. -/
inductive AttrVal : Type
  | str (s : String)
  | obj (o : Obj)
  | bool (b : Bool)
  deriving DecidableEq

/-- The v1.0 presentation exchange record (`V10PresentationExchange.__init__`,
lines 36-65): every constructor argument is stored verbatim on the instance;
string and dict attributes default to `None`, `auto_present` to `False`. -/
structure V10PresentationExchange : Type where
  presentation_exchange_id : Option String := none
  connection_id : Option String := none
  thread_id : Option String := none
  initiator : Option String := none
  role : Option String := none
  state : Option String := none
  presentation_proposal_dict : Option Obj := none
  presentation_request : Option Obj := none
  presentation : Option Obj := none
  verified : Option String := none
  auto_present : Bool := false
  error_msg : Option String := none
  deriving DecidableEq

namespace V10PresentationExchange

/-- `RECORD_TYPE` class constant (line 18). -/
def RECORD_TYPE : String := "presentation_exchange_v10"

/-- `RECORD_ID_NAME` class constant (line 19). -/
def RECORD_ID_NAME : String := "presentation_exchange_id"

/-- `WEBHOOK_TOPIC` class constant (line 20). -/
def WEBHOOK_TOPIC : String := "present_proof"

/-- One entry of the tag dict: `if val: result[prop] = val` for a string
attribute — included exactly when the value is present and non-empty
(Python truthiness on `Optional[str]`). -/
def tagEntry (name : String) (x : Option String) : List (String × String) :=
  match x with
  | none => []
  | some s => if s = "" then [] else [(name, s)]

/-- `record_tags` property (lines 88-102): the tag projection over the six
indexable attributes, in source order, keeping only truthy values. -/
def record_tags (r : V10PresentationExchange) : List (String × String) :=
  tagEntry "connection_id" r.connection_id
    ++ (tagEntry "thread_id" r.thread_id
    ++ (tagEntry "initiator" r.initiator
    ++ (tagEntry "role" r.role
    ++ (tagEntry "state" r.state
    ++ tagEntry "verified" r.verified))))

/-- Modelled from the spec: `BaseRecord.tags` is not in the analyzed source
(only `base_record.BaseRecord` is imported); per the spec, the value
projection "returns a mapping of all tag attributes from TagProjection()
merged with the non-tag attributes", so `tags` is the record's tag
projection. -/
def tags (r : V10PresentationExchange) : List (String × String) :=
  record_tags r

/-- One entry of the value dict for an opaque payload attribute:
`if val: result[prop] = val` — included when the dict is present and
non-empty (Python truthiness on `Optional[dict]`). -/
def objEntry (name : String) (x : Option Obj) : List (String × AttrVal) :=
  match x with
  | none => []
  | some o => if o = [] then [] else [(name, AttrVal.obj o)]

/-- One entry of the value dict for the boolean flag:
`if val: result[prop] = val` — included exactly when the flag is `True`. -/
def boolEntry (name : String) (b : Bool) : List (String × AttrVal) :=
  if b then [(name, AttrVal.bool true)] else []

/-- One entry of the value dict for a string attribute (`error_msg`):
included when present and non-empty. -/
def strEntry (name : String) (x : Option String) : List (String × AttrVal) :=
  match x with
  | none => []
  | some s => if s = "" then [] else [(name, AttrVal.str s)]

/-- `record_value` property (lines 72-86): starts from `self.tags` and adds
the truthy non-tag attributes, in source order. -/
def record_value (r : V10PresentationExchange) : List (String × AttrVal) :=
  (tags r).map (fun kv => (kv.1, AttrVal.str kv.2))
    ++ (objEntry "presentation_proposal_dict" r.presentation_proposal_dict
    ++ (objEntry "presentation_request" r.presentation_request
    ++ (objEntry "presentation" r.presentation
    ++ (boolEntry "auto_present" r.auto_present
    ++ strEntry "error_msg" r.error_msg))))

/-- `__init__` (lines 36-65): pure field assignment, no checks, no
defaulting other than the declared keyword defaults. -/
def construct
    (presentation_exchange_id connection_id thread_id initiator role st
      : Option String)
    (presentation_proposal_dict presentation_request presentation : Option Obj)
    (verified : Option String) (auto_present : Bool) (error_msg : Option String)
    : V10PresentationExchange :=
  { presentation_exchange_id := presentation_exchange_id
    connection_id := connection_id
    thread_id := thread_id
    initiator := initiator
    role := role
    state := st
    presentation_proposal_dict := presentation_proposal_dict
    presentation_request := presentation_request
    presentation := presentation
    verified := verified
    auto_present := auto_present
    error_msg := error_msg }

end V10PresentationExchange

/-- Dictionary lookup on an association list (Python `dict` access with
string keys, first binding wins; keys are unique in the generated dicts). -/
def dictGet {α : Type} (k : String) : List (String × α) → Option α
  | [] => none
  | (n, v) :: rest => if n = k then some v else dictGet k rest

/-- The six indexable (tag) attribute names, in the order of `record_tags`. -/
def tagProps : List String :=
  ["connection_id", "thread_id", "initiator", "role", "state", "verified"]

/-- The five non-tag attribute names added by `record_value`, in order. -/
def valueOnlyProps : List String :=
  ["presentation_proposal_dict", "presentation_request", "presentation",
    "auto_present", "error_msg"]

/-- The current value of a tag attribute of the record, by attribute name. -/
def tagField (r : V10PresentationExchange) (k : String) : Option String :=
  if k = "connection_id" then r.connection_id
  else if k = "thread_id" then r.thread_id
  else if k = "initiator" then r.initiator
  else if k = "role" then r.role
  else if k = "state" then r.state
  else if k = "verified" then r.verified
  else none

/-- A validation failure for one field: marshmallow's `OneOf` error, which
names the offending field and carries the list of allowed values
(lines 128-133, 134-139, 157-162). -/
structure SchemaValidationError : Type where
  field : String
  allowed : List String
  deriving DecidableEq

/-- Modelled from the spec: the typed candidate field mapping handled by
`Validate`/`Deserialize` (the marshmallow load machinery of
`BaseRecordSchema`/`BaseModelSchema` is not in the analyzed source).  Every
declared schema field is optional (`required=False` throughout,
lines 113-172); an absent field is `none`. -/
structure CandidateFields : Type where
  presentation_exchange_id : Option String := none
  connection_id : Option String := none
  thread_id : Option String := none
  initiator : Option String := none
  role : Option String := none
  state : Option String := none
  presentation_proposal_dict : Option Obj := none
  presentation_request : Option Obj := none
  presentation : Option Obj := none
  verified : Option String := none
  auto_present : Option Bool := none
  error_msg : Option String := none
  deriving DecidableEq

/-- The `OneOf` check of a single schema field: a present value outside the
allowed list yields one error naming the field and the allowed set; an
absent field yields none (`required=False`). -/
def checkOneOf (name : String) (allowed : List String) (x : Option String)
    : List SchemaValidationError :=
  match x with
  | none => []
  | some s => if s ∈ allowed then [] else [⟨name, allowed⟩]

/-- All field-level validation errors of a candidate mapping: exactly the
three `OneOf` validators declared in `V10PresentationExchangeSchema`
(initiator, lines 128-133; role, lines 134-139; verified, lines 157-162).
No other field carries a validator — in particular `state` (lines 140-144)
does not. -/
def fieldErrors (c : CandidateFields) : List SchemaValidationError :=
  checkOneOf "initiator" ["self", "external"] c.initiator
    ++ checkOneOf "role" ["prover", "verifier"] c.role
    ++ checkOneOf "verified" ["true", "false"] c.verified

/-- Modelled from the spec: `Validate` "checks each present field against its
declared constraint" and "fails with a SchemaValidationError naming the
offending field and the allowed set"; the constraints themselves are the
`OneOf` declarations of the source schema. -/
def validate (c : CandidateFields)
    : Except (List SchemaValidationError) CandidateFields :=
  if fieldErrors c = [] then Except.ok c else Except.error (fieldErrors c)

/-- Building the record from validated candidate fields: each schema field is
passed to the model constructor; an absent `auto_present` takes the
constructor default `False`. -/
def recordFromCandidate (c : CandidateFields) : V10PresentationExchange :=
  { presentation_exchange_id := c.presentation_exchange_id
    connection_id := c.connection_id
    thread_id := c.thread_id
    initiator := c.initiator
    role := c.role
    state := c.state
    presentation_proposal_dict := c.presentation_proposal_dict
    presentation_request := c.presentation_request
    presentation := c.presentation
    verified := c.verified
    auto_present := c.auto_present.getD false
    error_msg := c.error_msg }

/-- Modelled from the spec: `Deserialize(mapping) → Validate →
ExchangeRecord` — validate the candidate fields, then construct the record. -/
def deserialize (c : CandidateFields)
    : Except (List SchemaValidationError) V10PresentationExchange :=
  match validate c with
  | Except.ok c' => Except.ok (recordFromCandidate c')
  | Except.error es => Except.error es

/-- Modelled from the spec: `Serialize(record)` "produces the wire/storage
mapping: every populated attribute of the record, keyed by its canonical
field name"; serialization runs no validators (the schema's `OneOf`
validators apply on load only).  Absent attributes stay absent; the boolean
flag is always populated. -/
def serialize (r : V10PresentationExchange) : CandidateFields :=
  { presentation_exchange_id := r.presentation_exchange_id
    connection_id := r.connection_id
    thread_id := r.thread_id
    initiator := r.initiator
    role := r.role
    state := r.state
    presentation_proposal_dict := r.presentation_proposal_dict
    presentation_request := r.presentation_request
    presentation := r.presentation
    verified := r.verified
    auto_present := some r.auto_present
    error_msg := r.error_msg }

/-- A record whose populated enum-constrained fields satisfy the declared
constraints: `initiator ∈ {self, external}` or absent, `role ∈ {prover,
verifier}` or absent, `verified ∈ {"true", "false"}` or absent. -/
def validRecord (r : V10PresentationExchange) : Prop :=
  (∀ v, r.initiator = some v → v = "self" ∨ v = "external")
    ∧ (∀ v, r.role = some v → v = "prover" ∨ v = "verifier")
    ∧ (∀ v, r.verified = some v → v = "true" ∨ v = "false")

namespace V10PresentationExchange

/-- `STATE_*` class constants (lines 28-34): the seven documented values of
the `state` attribute, gathered into a list. -/
def stateValues : List String :=
  ["proposal_sent", "proposal_received", "request_sent", "request_received",
    "presentation_sent", "presentation_received", "verified"]

end V10PresentationExchange

/-- A fully populated record satisfying every declared enum constraint
(used to witness the round-trip theorem). -/
def rEx1 : V10PresentationExchange :=
  { presentation_exchange_id := some "pxid-0"
    connection_id := some "conn-1"
    thread_id := some "thr-1"
    initiator := some "self"
    role := some "prover"
    state := some "proposal_sent"
    presentation_proposal_dict := some [("@type", "propose-presentation")]
    presentation_request := some [("nonce", "123")]
    presentation := some [("proof", "p")]
    verified := some "true"
    auto_present := true
    error_msg := some "none so far" }

/-- Candidate mapping carrying a `role` outside the declared enumeration. -/
def candObserver : CandidateFields :=
  { role := some "observer" }

/-- Candidate mapping whose `state` is none of the seven documented values. -/
def candStateBogus : CandidateFields :=
  { state := some "not_a_state" }

/-- A record with a populated tag attribute (used against the disjointness
claim about the two projections). -/
def rEx4 : V10PresentationExchange :=
  { connection_id := some "c1" }

/-- A record with several populated tag attributes. -/
def rEx5 : V10PresentationExchange :=
  { connection_id := some "c1", role := some "prover",
    state := some "proposal_sent" }

/-- A record populating tag attributes, a payload and the flag. -/
def rEx6 : V10PresentationExchange :=
  { thread_id := some "t9", role := some "prover",
    presentation := some [("proof", "p")], auto_present := true }

/-- A record left at the constructor defaults (`auto_present = False`). -/
def rEx9 : V10PresentationExchange :=
  { connection_id := some "c2" }

/-- A record whose verification outcome is the negative string. -/
def rEx10 : V10PresentationExchange :=
  { verified := some "false" }

/-! ## Helper lemmas -/

open V10PresentationExchange

theorem mem_tagEntry {n k v : String} {x : Option String} :
    (k, v) ∈ tagEntry n x ↔ k = n ∧ x = some v ∧ v ≠ "" := by
  cases x with
  | none => simp [tagEntry]
  | some s =>
    by_cases hs : s = ""
    · subst hs
      constructor
      · intro h
        simp [tagEntry] at h
      · rintro ⟨rfl, hv, hne⟩
        exact ((hne (Option.some.inj hv).symm).elim)
    · simp only [tagEntry, if_neg hs, List.mem_singleton, Prod.mk.injEq,
        Option.some.injEq]
      constructor
      · rintro ⟨rfl, rfl⟩
        exact ⟨rfl, rfl, hs⟩
      · rintro ⟨rfl, rfl, _⟩
        exact ⟨rfl, rfl⟩

theorem mem_record_tags {r : V10PresentationExchange} {k v : String} :
    (k, v) ∈ record_tags r ↔
      (k = "connection_id" ∧ r.connection_id = some v ∧ v ≠ "")
      ∨ (k = "thread_id" ∧ r.thread_id = some v ∧ v ≠ "")
      ∨ (k = "initiator" ∧ r.initiator = some v ∧ v ≠ "")
      ∨ (k = "role" ∧ r.role = some v ∧ v ≠ "")
      ∨ (k = "state" ∧ r.state = some v ∧ v ≠ "")
      ∨ (k = "verified" ∧ r.verified = some v ∧ v ≠ "") := by
  simp [record_tags, List.mem_append, mem_tagEntry]

theorem mem_objEntry {n k : String} {x : Option Obj} {w : AttrVal} :
    (k, w) ∈ objEntry n x ↔
      k = n ∧ ∃ o, x = some o ∧ o ≠ [] ∧ w = AttrVal.obj o := by
  cases x with
  | none => simp [objEntry]
  | some o =>
    by_cases ho : o = []
    · subst ho
      simp [objEntry]
    · simp only [objEntry, if_neg ho, List.mem_singleton, Prod.mk.injEq,
        Option.some.injEq]
      constructor
      · rintro ⟨rfl, rfl⟩
        exact ⟨rfl, o, rfl, ho, rfl⟩
      · rintro ⟨rfl, o', ho', _, rfl⟩
        cases ho'
        exact ⟨rfl, rfl⟩

theorem mem_boolEntry {n k : String} {b : Bool} {w : AttrVal} :
    (k, w) ∈ boolEntry n b ↔ k = n ∧ b = true ∧ w = AttrVal.bool true := by
  cases b <;> simp [boolEntry]

theorem mem_strEntry {n k : String} {x : Option String} {w : AttrVal} :
    (k, w) ∈ strEntry n x ↔
      k = n ∧ ∃ s, x = some s ∧ s ≠ "" ∧ w = AttrVal.str s := by
  cases x with
  | none => simp [strEntry]
  | some s =>
    by_cases hs : s = ""
    · subst hs
      simp [strEntry]
    · simp only [strEntry, if_neg hs, List.mem_singleton, Prod.mk.injEq,
        Option.some.injEq]
      constructor
      · rintro ⟨rfl, rfl⟩
        exact ⟨rfl, s, rfl, hs, rfl⟩
      · rintro ⟨rfl, s', hs', _, rfl⟩
        cases hs'
        exact ⟨rfl, rfl⟩

theorem record_tags_key_mem {r : V10PresentationExchange} {k v : String}
    (h : (k, v) ∈ record_tags r) : k ∈ tagProps := by
  rcases mem_record_tags.mp h with
    ⟨rfl, -, -⟩ | ⟨rfl, -, -⟩ | ⟨rfl, -, -⟩ | ⟨rfl, -, -⟩ | ⟨rfl, -, -⟩ | ⟨rfl, -, -⟩ <;>
    simp [tagProps]

theorem record_tags_subset_record_value (r : V10PresentationExchange)
    {k v : String} (h : (k, v) ∈ record_tags r) :
    (k, AttrVal.str v) ∈ record_value r := by
  unfold record_value
  refine List.mem_append_left _ ?_
  unfold tags
  exact List.mem_map_of_mem (fun kv => (kv.1, AttrVal.str kv.2)) h

theorem dictGet_append_of_none {α : Type} {k : String}
    {l₁ : List (String × α)} (l₂ : List (String × α))
    (h : dictGet k l₁ = none) : dictGet k (l₁ ++ l₂) = dictGet k l₂ := by
  induction l₁ with
  | nil => rfl
  | cons hd tl ih =>
    obtain ⟨n, v⟩ := hd
    by_cases hn : n = k
    · simp [dictGet, hn] at h
    · simp only [dictGet, hn, if_false] at h
      simp only [List.cons_append, dictGet, hn, if_false]
      exact ih h

theorem dictGet_append_of_some {α : Type} {k : String} {v : α}
    {l₁ : List (String × α)} (l₂ : List (String × α))
    (h : dictGet k l₁ = some v) : dictGet k (l₁ ++ l₂) = some v := by
  induction l₁ with
  | nil => simp [dictGet] at h
  | cons hd tl ih =>
    obtain ⟨n, w⟩ := hd
    by_cases hn : n = k
    · simp only [dictGet, if_pos hn] at h
      simp only [List.cons_append, dictGet, if_pos hn]
      exact h
    · simp only [dictGet, if_neg hn] at h
      simp only [List.cons_append, dictGet, if_neg hn]
      exact ih h

theorem dictGet_tagEntry_ne {n k : String} (h : n ≠ k) (x : Option String) :
    dictGet k (tagEntry n x) = none := by
  cases x with
  | none => rfl
  | some s =>
    by_cases hs : s = ""
    · simp [tagEntry, hs, dictGet]
    · simp [tagEntry, hs, dictGet, h]

theorem dictGet_objEntry_ne {n k : String} (h : n ≠ k) (x : Option Obj) :
    dictGet k (objEntry n x) = none := by
  cases x with
  | none => rfl
  | some o =>
    by_cases ho : o = []
    · simp [objEntry, ho, dictGet]
    · simp [objEntry, ho, dictGet, h]

theorem dictGet_boolEntry_ne {n k : String} (h : n ≠ k) (b : Bool) :
    dictGet k (boolEntry n b) = none := by
  cases b <;> simp [boolEntry, dictGet, h]

theorem dictGet_strEntry_ne {n k : String} (h : n ≠ k) (x : Option String) :
    dictGet k (strEntry n x) = none := by
  cases x with
  | none => rfl
  | some s =>
    by_cases hs : s = ""
    · simp [strEntry, hs, dictGet]
    · simp [strEntry, hs, dictGet, h]

theorem dictGet_tagEntry_self (n : String) (x : Option String) :
    dictGet n (tagEntry n x) =
      match x with
      | none => none
      | some s => if s = "" then none else some s := by
  cases x with
  | none => rfl
  | some s =>
    by_cases hs : s = ""
    · simp [tagEntry, hs, dictGet]
    · simp [tagEntry, hs, dictGet]

theorem dictGet_map_str {k : String} (l : List (String × String)) :
    dictGet k (l.map (fun kv => (kv.1, AttrVal.str kv.2)))
      = (dictGet k l).map AttrVal.str := by
  induction l with
  | nil => rfl
  | cons hd tl ih =>
    obtain ⟨n, v⟩ := hd
    by_cases hn : n = k
    · simp [dictGet, hn]
    · simp [dictGet, hn, ih]

theorem dictGet_tags_role (r : V10PresentationExchange) :
    dictGet "role" (record_tags r) =
      match r.role with
      | none => none
      | some s => if s = "" then none else some s := by
  unfold record_tags
  rw [dictGet_append_of_none _ (dictGet_tagEntry_ne (by decide) _)]
  rw [dictGet_append_of_none _ (dictGet_tagEntry_ne (by decide) _)]
  rw [dictGet_append_of_none _ (dictGet_tagEntry_ne (by decide) _)]
  cases hx : r.role with
  | none =>
    rw [dictGet_append_of_none _ (by rfl)]
    rw [dictGet_append_of_none _ (dictGet_tagEntry_ne (by decide) _)]
    exact dictGet_tagEntry_ne (by decide) _
  | some s =>
    by_cases hs : s = ""
    · subst hs
      rw [dictGet_append_of_none _ (by simp [tagEntry, dictGet])]
      rw [dictGet_append_of_none _ (dictGet_tagEntry_ne (by decide) _)]
      rw [dictGet_tagEntry_ne (by decide)]
      simp
    · rw [dictGet_append_of_some _
        (show dictGet "role" (tagEntry "role" (some s)) = some s by
          simp [tagEntry, hs, dictGet])]
      simp [hs]

theorem dictGet_tags_verified (r : V10PresentationExchange) :
    dictGet "verified" (record_tags r) =
      match r.verified with
      | none => none
      | some s => if s = "" then none else some s := by
  unfold record_tags
  rw [dictGet_append_of_none _ (dictGet_tagEntry_ne (by decide) _)]
  rw [dictGet_append_of_none _ (dictGet_tagEntry_ne (by decide) _)]
  rw [dictGet_append_of_none _ (dictGet_tagEntry_ne (by decide) _)]
  rw [dictGet_append_of_none _ (dictGet_tagEntry_ne (by decide) _)]
  rw [dictGet_append_of_none _ (dictGet_tagEntry_ne (by decide) _)]
  exact dictGet_tagEntry_self _ _

theorem dictGet_tags_none_of_not_tagProp (r : V10PresentationExchange)
    {k : String} (hk : ¬ k ∈ tagProps) : dictGet k (record_tags r) = none := by
  have h6 : "verified" ≠ k := by
    intro h
    exact hk (h ▸ (by decide : "verified" ∈ tagProps))
  have h5 : "state" ≠ k := by
    intro h
    exact hk (h ▸ (by decide : "state" ∈ tagProps))
  have h4 : "role" ≠ k := by
    intro h
    exact hk (h ▸ (by decide : "role" ∈ tagProps))
  have h3 : "initiator" ≠ k := by
    intro h
    exact hk (h ▸ (by decide : "initiator" ∈ tagProps))
  have h2 : "thread_id" ≠ k := by
    intro h
    exact hk (h ▸ (by decide : "thread_id" ∈ tagProps))
  have h1 : "connection_id" ≠ k := by
    intro h
    exact hk (h ▸ (by decide : "connection_id" ∈ tagProps))
  unfold record_tags
  rw [dictGet_append_of_none _ (dictGet_tagEntry_ne h1 _)]
  rw [dictGet_append_of_none _ (dictGet_tagEntry_ne h2 _)]
  rw [dictGet_append_of_none _ (dictGet_tagEntry_ne h3 _)]
  rw [dictGet_append_of_none _ (dictGet_tagEntry_ne h4 _)]
  rw [dictGet_append_of_none _ (dictGet_tagEntry_ne h5 _)]
  exact dictGet_tagEntry_ne h6 _

theorem dictGet_value_auto_present (r : V10PresentationExchange) :
    dictGet "auto_present" (record_value r)
      = if r.auto_present then some (AttrVal.bool true) else none := by
  unfold record_value
  have hmap : dictGet "auto_present"
      ((tags r).map (fun kv => (kv.1, AttrVal.str kv.2))) = none := by
    rw [dictGet_map_str]
    unfold tags
    rw [dictGet_tags_none_of_not_tagProp r (by decide)]
    rfl
  rw [dictGet_append_of_none _ hmap]
  rw [dictGet_append_of_none _ (dictGet_objEntry_ne (by decide) _)]
  rw [dictGet_append_of_none _ (dictGet_objEntry_ne (by decide) _)]
  rw [dictGet_append_of_none _ (dictGet_objEntry_ne (by decide) _)]
  cases hb : r.auto_present with
  | false =>
    rw [dictGet_append_of_none _ (by simp [boolEntry, dictGet])]
    rw [dictGet_strEntry_ne (by decide) _]
    rfl
  | true =>
    rw [dictGet_append_of_some _
      (show dictGet "auto_present" (boolEntry "auto_present" true)
          = some (AttrVal.bool true) by simp [boolEntry, dictGet])]
    rfl

theorem checkOneOf_eq_nil {n : String} {allowed : List String}
    {x : Option String} :
    checkOneOf n allowed x = [] ↔ ∀ s, x = some s → s ∈ allowed := by
  cases x with
  | none => simp [checkOneOf]
  | some s =>
    by_cases hs : s ∈ allowed
    · simp [checkOneOf, hs]
    · simp [checkOneOf, hs]

theorem fieldErrors_eq_nil_iff (c : CandidateFields) :
    fieldErrors c = [] ↔
      ((∀ v, c.initiator = some v → v = "self" ∨ v = "external")
        ∧ (∀ v, c.role = some v → v = "prover" ∨ v = "verifier")
        ∧ (∀ v, c.verified = some v → v = "true" ∨ v = "false")) := by
  unfold fieldErrors
  rw [List.append_eq_nil, List.append_eq_nil]
  rw [checkOneOf_eq_nil, checkOneOf_eq_nil, checkOneOf_eq_nil]
  simp [and_assoc]

theorem deserialize_isOk_iff (c : CandidateFields) :
    (deserialize c).isOk = true ↔ fieldErrors c = [] := by
  unfold deserialize validate
  by_cases h : fieldErrors c = []
  · simp [h, Except.isOk, Except.toBool]
  · simp [h, Except.isOk, Except.toBool]

theorem deserialize_eq_ok_of_nil {c : CandidateFields}
    (h : fieldErrors c = []) :
    deserialize c = Except.ok (recordFromCandidate c) := by
  unfold deserialize validate
  rw [if_pos h]

theorem deserialize_eq_error_of_ne_nil {c : CandidateFields}
    (h : fieldErrors c ≠ []) :
    deserialize c = Except.error (fieldErrors c) := by
  unfold deserialize validate
  rw [if_neg h]

/-! ## Claim theorems -/

/-- C8: the record type discriminator is exactly "presentation_exchange_v10"
and the fixed webhook topic is exactly "present_proof"; both are immutable
type-level constants of the record model. -/
theorem c8_record_type_and_webhook_topic :
    V10PresentationExchange.RECORD_TYPE = "presentation_exchange_v10"
    ∧ V10PresentationExchange.WEBHOOK_TOPIC = "present_proof" :=
  ⟨rfl, rfl⟩

/-- C1: for every record whose fields satisfy the declared constraints
(initiator in self/external or absent, role in prover/verifier or absent,
verified in "true"/"false" or absent), deserializing the serialization of
the record yields back the record itself — in particular they agree on all
populated fields. -/
theorem c1_round_trip (r : V10PresentationExchange) (h : validRecord r) :
    deserialize (serialize r) = Except.ok r := by
  obtain ⟨h1, h2, h3⟩ := h
  have e : fieldErrors (serialize r) = [] := by
    rw [fieldErrors_eq_nil_iff]
    exact ⟨h1, h2, h3⟩
  rw [deserialize_eq_ok_of_nil e]
  rfl

/-- Witness for C1: a concrete fully populated valid record round-trips. -/
theorem c1_round_trip_witness :
    validRecord rEx1 ∧ deserialize (serialize rEx1) = Except.ok rEx1 := by
  have hv : validRecord rEx1 := by
    refine ⟨?_, ?_, ?_⟩
    · intro v hv
      injection hv with h
      subst h
      exact Or.inl rfl
    · intro v hv
      injection hv with h
      subst h
      exact Or.inl rfl
    · intro v hv
      injection hv with h
      subst h
      exact Or.inl rfl
  exact ⟨hv, c1_round_trip rEx1 hv⟩

/-- C5: the tag projection contains a binding exactly for those of the six
indexable attributes that currently hold a non-empty value, bound to the
attribute's current value; absent or empty attributes are omitted
entirely. -/
theorem c5_record_tags_characterization (r : V10PresentationExchange)
    (k v : String) :
    (k, v) ∈ V10PresentationExchange.record_tags r ↔
      (k ∈ tagProps ∧ tagField r k = some v ∧ v ≠ "") := by
  rw [mem_record_tags]
  constructor
  · rintro (⟨rfl, h, hv⟩ | ⟨rfl, h, hv⟩ | ⟨rfl, h, hv⟩ | ⟨rfl, h, hv⟩ |
      ⟨rfl, h, hv⟩ | ⟨rfl, h, hv⟩)
    · exact ⟨by decide, by simp [tagField, h], hv⟩
    · exact ⟨by decide, by simp [tagField, h], hv⟩
    · exact ⟨by decide, by simp [tagField, h], hv⟩
    · exact ⟨by decide, by simp [tagField, h], hv⟩
    · exact ⟨by decide, by simp [tagField, h], hv⟩
    · exact ⟨by decide, by simp [tagField, h], hv⟩
  · rintro ⟨hk, hf, hv⟩
    have hk' : k = "connection_id" ∨ k = "thread_id" ∨ k = "initiator"
        ∨ k = "role" ∨ k = "state" ∨ k = "verified" := by
      simpa [tagProps] using hk
    rcases hk' with rfl | rfl | rfl | rfl | rfl | rfl
    · exact Or.inl ⟨rfl, by simpa [tagField] using hf, hv⟩
    · exact Or.inr (Or.inl ⟨rfl, by simpa [tagField] using hf, hv⟩)
    · exact Or.inr (Or.inr (Or.inl ⟨rfl, by simpa [tagField] using hf, hv⟩))
    · exact Or.inr (Or.inr (Or.inr (Or.inl
        ⟨rfl, by simpa [tagField] using hf, hv⟩)))
    · exact Or.inr (Or.inr (Or.inr (Or.inr (Or.inl
        ⟨rfl, by simpa [tagField] using hf, hv⟩))))
    · exact Or.inr (Or.inr (Or.inr (Or.inr (Or.inr
        ⟨rfl, by simpa [tagField] using hf, hv⟩))))

/-- Witness for C5 at a concrete record and binding. -/
theorem c5_witness :
    ("role", "prover") ∈ V10PresentationExchange.record_tags rEx5
    ∧ ("role" ∈ tagProps ∧ tagField rEx5 "role" = some "prover"
        ∧ "prover" ≠ "") :=
  ⟨by decide,
    (c5_record_tags_characterization rEx5 "role" "prover").mp (by decide)⟩

/-- C6: every tag binding reappears in the value projection with the same
value (so the tag keys, all among the six tag fields, are a subset of the
value projection's keys), and neither projection contains a binding whose
value is empty or the type's default. -/
theorem c6_projection_consistency (r : V10PresentationExchange) :
    (∀ k v, (k, v) ∈ V10PresentationExchange.record_tags r →
      (k, AttrVal.str v) ∈ V10PresentationExchange.record_value r
        ∧ k ∈ tagProps ∧ v ≠ "")
    ∧ (∀ k w, (k, w) ∈ V10PresentationExchange.record_value r →
      w ≠ AttrVal.str "" ∧ w ≠ AttrVal.obj [] ∧ w ≠ AttrVal.bool false) := by
  constructor
  · intro k v h
    refine ⟨record_tags_subset_record_value r h, record_tags_key_mem h, ?_⟩
    rcases mem_record_tags.mp h with ⟨-, -, hv⟩ | ⟨-, -, hv⟩ | ⟨-, -, hv⟩ |
      ⟨-, -, hv⟩ | ⟨-, -, hv⟩ | ⟨-, -, hv⟩ <;> exact hv
  · intro k w h
    unfold V10PresentationExchange.record_value at h
    rcases List.mem_append.mp h with hmap | hrest
    · rcases List.mem_map.mp hmap with ⟨⟨a, b⟩, hab, heq⟩
      obtain ⟨rfl, rfl⟩ : a = k ∧ AttrVal.str b = w := by
        simpa [Prod.ext_iff] using heq
      have hb : b ≠ "" := by
        rcases mem_record_tags.mp hab with ⟨-, -, hv⟩ | ⟨-, -, hv⟩ |
          ⟨-, -, hv⟩ | ⟨-, -, hv⟩ | ⟨-, -, hv⟩ | ⟨-, -, hv⟩ <;> exact hv
      exact ⟨by simp [hb], by simp, by simp⟩
    · rcases List.mem_append.mp hrest with h1 | hrest
      · rcases mem_objEntry.mp h1 with ⟨rfl, o, ho, hne, rfl⟩
        exact ⟨by simp, by simp [hne], by simp⟩
      · rcases List.mem_append.mp hrest with h2 | hrest
        · rcases mem_objEntry.mp h2 with ⟨rfl, o, ho, hne, rfl⟩
          exact ⟨by simp, by simp [hne], by simp⟩
        · rcases List.mem_append.mp hrest with h3 | hrest
          · rcases mem_objEntry.mp h3 with ⟨rfl, o, ho, hne, rfl⟩
            exact ⟨by simp, by simp [hne], by simp⟩
          · rcases List.mem_append.mp hrest with h4 | h5
            · rcases mem_boolEntry.mp h4 with ⟨rfl, hb, rfl⟩
              exact ⟨by simp, by simp, by simp⟩
            · rcases mem_strEntry.mp h5 with ⟨rfl, s, hs, hne, rfl⟩
              exact ⟨by simp [hne], by simp, by simp⟩

/-- Witness for C6 at a concrete record: the tag binding for role reappears
in the value projection. -/
theorem c6_witness :
    ("role", AttrVal.str "prover") ∈ V10PresentationExchange.record_value rEx6
    ∧ "role" ∈ tagProps ∧ "prover" ≠ "" :=
  (c6_projection_consistency rEx6).1 "role" "prover" (by decide)

/-- C4 as stated is false on the code: the value projection starts from the
tag projection, so a populated tag attribute's key appears in BOTH mappings
— at the concrete record with connection_id "c1", "connection_id" is a key
of the tag projection and of the value projection. -/
theorem c4_counterexample :
    "connection_id" ∈ (V10PresentationExchange.record_tags rEx4).map Prod.fst
    ∧ "connection_id"
        ∈ (V10PresentationExchange.record_value rEx4).map Prod.fst := by
  decide

/-- C4 amended: the six tag attribute names and the five value-only
attribute names are disjoint — every attribute belongs to exactly one
group — but the value projection is not disjoint from the tag projection:
it contains every tag binding (the tag keys are duplicated into the value
mapping). -/
theorem c4_attribute_partition :
    (∀ p, p ∈ tagProps → ¬ p ∈ valueOnlyProps)
    ∧ (∀ (r : V10PresentationExchange) (k v : String),
        (k, v) ∈ V10PresentationExchange.record_tags r →
        (k, AttrVal.str v) ∈ V10PresentationExchange.record_value r) := by
  constructor
  · decide
  · intro r k v h
    exact record_tags_subset_record_value r h

/-- Witness for the amended C4 at concrete inputs. -/
theorem c4_partition_witness :
    ¬ "connection_id" ∈ valueOnlyProps
    ∧ ("connection_id", AttrVal.str "c1")
        ∈ V10PresentationExchange.record_value rEx4 :=
  ⟨c4_attribute_partition.1 "connection_id" (by decide),
    c4_attribute_partition.2 rEx4 "connection_id" "c1" (by decide)⟩

/-- C9: the value projection omits the auto_present key entirely when the
flag is false (the constructor default); the key appears — with value
true — exactly when the flag is true. -/
theorem c9_auto_present_inclusion (r : V10PresentationExchange) :
    (dictGet "auto_present" (V10PresentationExchange.record_value r)
        = some (AttrVal.bool true) ↔ r.auto_present = true)
    ∧ (r.auto_present = false →
        dictGet "auto_present" (V10PresentationExchange.record_value r)
          = none) := by
  constructor
  · rw [dictGet_value_auto_present]
    cases r.auto_present <;> simp
  · intro h
    rw [dictGet_value_auto_present, h]
    rfl

/-- Witness for C9: a record left at the default flag has no auto_present
binding in its value projection. -/
theorem c9_witness :
    rEx9.auto_present = false
    ∧ dictGet "auto_present" (V10PresentationExchange.record_value rEx9)
        = none :=
  ⟨rfl, (c9_auto_present_inclusion rEx9).2 rfl⟩

/-- C10: a record whose verified field is the string "false" carries the
binding verified ↦ "false" in both projections — the string "false" is
truthy, so a negative verification outcome stays indexable and is
distinguishable from an absent outcome. -/
theorem c10_verified_false_indexable (r : V10PresentationExchange)
    (h : r.verified = some "false") :
    dictGet "verified" (V10PresentationExchange.record_tags r) = some "false"
    ∧ dictGet "verified" (V10PresentationExchange.record_value r)
        = some (AttrVal.str "false") := by
  have ht : dictGet "verified" (V10PresentationExchange.record_tags r)
      = some "false" := by
    rw [dictGet_tags_verified, h]
    show (if ("false" : String) = "" then none else some "false") = some "false"
    rw [if_neg (by decide : ¬ ("false" : String) = "")]
  refine ⟨ht, ?_⟩
  have hv : dictGet "verified"
      ((V10PresentationExchange.tags r).map
        (fun kv => (kv.1, AttrVal.str kv.2)))
      = some (AttrVal.str "false") := by
    rw [dictGet_map_str]
    unfold V10PresentationExchange.tags
    rw [ht]
    rfl
  unfold V10PresentationExchange.record_value
  exact dictGet_append_of_some _ hv

/-- Witness for C10 at a concrete record. -/
theorem c10_witness :
    rEx10.verified = some "false"
    ∧ dictGet "verified" (V10PresentationExchange.record_tags rEx10)
        = some "false"
    ∧ dictGet "verified" (V10PresentationExchange.record_value rEx10)
        = some (AttrVal.str "false") := by
  have h := c10_verified_false_indexable rEx10 rfl
  exact ⟨rfl, h.1, h.2⟩

/-- C2: validation (and hence deserialization) succeeds iff every present
enum-constrained field is within its declared set; on failure the error
list names the offending field together with its allowed set, and on
success the returned record satisfies the constraints. -/
theorem c2_validate_characterization (c : CandidateFields) :
    ((deserialize c).isOk = true ↔
      ((∀ v, c.initiator = some v → v = "self" ∨ v = "external")
        ∧ (∀ v, c.role = some v → v = "prover" ∨ v = "verifier")
        ∧ (∀ v, c.verified = some v → v = "true" ∨ v = "false")))
    ∧ (∀ v, c.initiator = some v → v ≠ "self" → v ≠ "external" →
        deserialize c = Except.error (fieldErrors c)
        ∧ SchemaValidationError.mk "initiator" ["self", "external"]
            ∈ fieldErrors c)
    ∧ (∀ v, c.role = some v → v ≠ "prover" → v ≠ "verifier" →
        deserialize c = Except.error (fieldErrors c)
        ∧ SchemaValidationError.mk "role" ["prover", "verifier"]
            ∈ fieldErrors c)
    ∧ (∀ v, c.verified = some v → v ≠ "true" → v ≠ "false" →
        deserialize c = Except.error (fieldErrors c)
        ∧ SchemaValidationError.mk "verified" ["true", "false"]
            ∈ fieldErrors c)
    ∧ (∀ r, deserialize c = Except.ok r → validRecord r) := by
  refine ⟨?_, ?_, ?_, ?_, ?_⟩
  · rw [deserialize_isOk_iff, fieldErrors_eq_nil_iff]
  · intro v hv hx1 hx2
    have hmem : SchemaValidationError.mk "initiator" ["self", "external"]
        ∈ fieldErrors c := by
      unfold fieldErrors
      refine List.mem_append_left _ (List.mem_append_left _ ?_)
      rw [hv]
      simp [checkOneOf, hx1, hx2]
    have hne : fieldErrors c ≠ [] := by
      intro hnil
      rw [hnil] at hmem
      exact List.not_mem_nil _ hmem
    exact ⟨deserialize_eq_error_of_ne_nil hne, hmem⟩
  · intro v hv hx1 hx2
    have hmem : SchemaValidationError.mk "role" ["prover", "verifier"]
        ∈ fieldErrors c := by
      unfold fieldErrors
      refine List.mem_append_left _ (List.mem_append_right _ ?_)
      rw [hv]
      simp [checkOneOf, hx1, hx2]
    have hne : fieldErrors c ≠ [] := by
      intro hnil
      rw [hnil] at hmem
      exact List.not_mem_nil _ hmem
    exact ⟨deserialize_eq_error_of_ne_nil hne, hmem⟩
  · intro v hv hx1 hx2
    have hmem : SchemaValidationError.mk "verified" ["true", "false"]
        ∈ fieldErrors c := by
      unfold fieldErrors
      refine List.mem_append_right _ ?_
      rw [hv]
      simp [checkOneOf, hx1, hx2]
    have hne : fieldErrors c ≠ [] := by
      intro hnil
      rw [hnil] at hmem
      exact List.not_mem_nil _ hmem
    exact ⟨deserialize_eq_error_of_ne_nil hne, hmem⟩
  · intro r hr
    by_cases h : fieldErrors c = []
    · rw [deserialize_eq_ok_of_nil h] at hr
      injection hr with hr
      subst hr
      have hc := (fieldErrors_eq_nil_iff c).mp h
      exact ⟨hc.1, hc.2.1, hc.2.2⟩
    · rw [deserialize_eq_error_of_ne_nil h] at hr
      simp at hr

/-- Witness for C2: deserializing a mapping whose role is "observer" fails
with an error naming the role field and its allowed set. -/
theorem c2_witness :
    deserialize candObserver = Except.error (fieldErrors candObserver)
    ∧ SchemaValidationError.mk "role" ["prover", "verifier"]
        ∈ fieldErrors candObserver :=
  (c2_validate_characterization candObserver).2.2.1 "observer" rfl
    (by decide) (by decide)

/-- C3 as stated is false on the code: the schema declares no field-level
constraint on state, so a candidate whose state is a string outside the
seven enumerated values deserializes successfully (here "not_a_state",
which is none of the seven). -/
theorem c3_counterexample :
    deserialize candStateBogus
        = Except.ok (recordFromCandidate candStateBogus)
    ∧ (recordFromCandidate candStateBogus).state = some "not_a_state"
    ∧ ¬ "not_a_state" ∈ V10PresentationExchange.stateValues :=
  ⟨rfl, rfl, by decide⟩

/-- C3 amended: the schema does not constrain state at the field level —
replacing the state of any candidate mapping by any string (or removing
it) never changes the validation outcome, and a present state string is
stored verbatim in the resulting record. -/
theorem c3_state_not_validated (c : CandidateFields) (s : Option String) :
    deserialize { c with state := s }
      = (deserialize c).map (fun r => { r with state := s }) := by
  have he : fieldErrors { c with state := s } = fieldErrors c := rfl
  by_cases h : fieldErrors c = []
  · rw [deserialize_eq_ok_of_nil (he.trans h), deserialize_eq_ok_of_nil h]
    rfl
  · rw [deserialize_eq_error_of_ne_nil (fun hh => h (he.symm.trans hh)),
      deserialize_eq_error_of_ne_nil h]
    rfl

/-- C7: construction stores every field verbatim — including values outside
the declared enumerations — and projection and serialization are pure
total projections of those fields: a record whose initiator and role are
arbitrary non-empty strings is constructed, tagged and serialized with
those very values, with no validation error anywhere on that path. -/
theorem c7_unchecked_construction (pid cid tid st ve em : Option String)
    (iniS roS : String) (_hini : iniS ≠ "") (hro : roS ≠ "")
    (p1 p2 p3 : Option Obj) (ap : Bool) :
    V10PresentationExchange.construct pid cid tid (some iniS) (some roS) st
        p1 p2 p3 ve ap em
      = { presentation_exchange_id := pid, connection_id := cid,
          thread_id := tid, initiator := some iniS, role := some roS,
          state := st, presentation_proposal_dict := p1,
          presentation_request := p2, presentation := p3, verified := ve,
          auto_present := ap, error_msg := em }
    ∧ (serialize (V10PresentationExchange.construct pid cid tid (some iniS)
        (some roS) st p1 p2 p3 ve ap em)).role = some roS
    ∧ (serialize (V10PresentationExchange.construct pid cid tid (some iniS)
        (some roS) st p1 p2 p3 ve ap em)).initiator = some iniS
    ∧ dictGet "role" (V10PresentationExchange.record_tags
        (V10PresentationExchange.construct pid cid tid (some iniS)
          (some roS) st p1 p2 p3 ve ap em)) = some roS
    ∧ dictGet "role" (V10PresentationExchange.record_value
        (V10PresentationExchange.construct pid cid tid (some iniS)
          (some roS) st p1 p2 p3 ve ap em)) = some (AttrVal.str roS) := by
  have ht : dictGet "role" (V10PresentationExchange.record_tags
      (V10PresentationExchange.construct pid cid tid (some iniS) (some roS)
        st p1 p2 p3 ve ap em)) = some roS := by
    rw [dictGet_tags_role]
    show (if roS = "" then none else some roS) = some roS
    rw [if_neg hro]
  have hv : dictGet "role"
      ((V10PresentationExchange.tags
        (V10PresentationExchange.construct pid cid tid (some iniS) (some roS)
          st p1 p2 p3 ve ap em)).map (fun kv => (kv.1, AttrVal.str kv.2)))
      = some (AttrVal.str roS) := by
    rw [dictGet_map_str]
    unfold V10PresentationExchange.tags
    rw [ht]
    rfl
  refine ⟨rfl, rfl, rfl, ht, ?_⟩
  unfold V10PresentationExchange.record_value
  exact dictGet_append_of_some _ hv

/-- Witness for C7: out-of-enumeration initiator and role values flow
through construction and the tag projection unchecked. -/
theorem c7_witness :
    ("bogus" : String) ≠ "" ∧ ("observer" : String) ≠ ""
    ∧ dictGet "role" (V10PresentationExchange.record_tags
        (V10PresentationExchange.construct none none none (some "bogus")
          (some "observer") none none none none none true none))
      = some "observer" :=
  ⟨by decide, by decide,
    (c7_unchecked_construction none none none none none none "bogus"
      "observer" (by decide) (by decide) none none none true).2.2.2.1⟩
